import Mathlib

/-!
# Verification of the arcade-shooter core loop (`src/main.rs`)

A shallow embedding of the frame-by-frame simulation of the macroquad/bevy_ecs
arcade shooter: the game-state machine with its edge predicates, the per-frame
schedule (menu handlers, player setup on entering `Playing`, teardown on leaving
`MainMenu`, and the gameplay system set), collision resolution, obstacle
spawning, and kinematics.

Modelling conventions:
* `f32` arithmetic is modelled over `ℚ` (exact rational arithmetic).
* bevy `Commands` are deferred: a system's structural edits (spawns/despawns)
  are applied when the system finishes, while queries inside one system iterate
  the snapshot taken at its start.  `check_collisions` therefore checks every
  (bullet, faller) pair of its snapshot, matching the source.
* `Single<...>` system parameters skip the whole system unless the query
  matches exactly one entity.
* Randomness is passed in explicitly: `rand::gen_range(lo, hi)` on floats is
  `lo + (hi - lo) * t` with a unit sample `t ∈ [0,1)` (quad_rand), and the
  integer roll of the Bernoulli spawn trial is an explicit `roll : ℕ`.
* `std::process::exit` is modelled by the frame step returning `none`.
-/

set_option linter.unusedVariables false

namespace Shooter

/-- The four game states (`enum GameState`); the `#[default]` variant is
`MainMenu`. -/
inductive GameState where
  | MainMenu
  | Playing
  | Paused
  | GameOver
deriving DecidableEq, Repr, Inhabited

/-- Rust `struct Shape { size, x, y }`: a square hitbox given by its center `(x, y)`
and edge length `size`. -/
structure Shape where
  size : ℚ
  x : ℚ
  y : ℚ
deriving DecidableEq, Repr

/-- macroquad `Rect` (top-left corner plus extents). -/
structure SRect where
  x : ℚ
  y : ℚ
  w : ℚ
  h : ℚ
deriving DecidableEq, Repr

/-- Source `Shape::rect`: the AABB of a shape, `{x - size/2, y - size/2, size, size}`. -/
def Shape.rect (s : Shape) : SRect :=
  { x := s.x - s.size / 2, y := s.y - s.size / 2, w := s.size, h := s.size }

/-- macroquad `Rect::overlaps`: closed-boundary axis-aligned intersection,
`left ≤ other.right ∧ right ≥ other.left ∧ top ≤ other.bottom ∧ bottom ≥ other.top`. -/
def SRect.overlaps (a b : SRect) : Bool :=
  decide (a.x ≤ b.x + b.w) && decide (a.x + a.w ≥ b.x) &&
  decide (a.y ≤ b.y + b.h) && decide (a.y + a.h ≥ b.y)

/-- Source `Shape::collides_with`: AABB overlap of the two hitboxes. -/
def Shape.collides_with (s other : Shape) : Bool :=
  s.rect.overlaps other.rect

/-- A `Player` bundle: component `Player { speed }` plus its `Shape`. -/
structure PlayerE where
  speed : ℚ
  shape : Shape
deriving DecidableEq, Repr

/-- A `Faller` bundle: component `Faller { speed }` plus its `Shape`. -/
structure FallerE where
  speed : ℚ
  shape : Shape
deriving DecidableEq, Repr

/-- A `Bullet` bundle: component `Bullet { speed }` plus its `Shape`. -/
structure BulletE where
  speed : ℚ
  shape : Shape
deriving DecidableEq, Repr

/-- The mutable world observed between frames: the `CurrentState` resource
(state triple) and the entity arena, split by bundle kind.

`score`/`highScore` — Modelled from the spec: score tracking ("add
`size.round()` to score; update high_score = max(high_score, score)",
spec §4.3) is absent from `src/main.rs` (only a commented-out `score = 0`
remains there); the two counters and their update rule follow the spec's
words. -/
structure WorldState where
  previous : GameState
  current : GameState
  next : GameState
  players : List PlayerE
  fallers : List FallerE
  bullets : List BulletE
  score : ℤ
  highScore : ℤ
deriving DecidableEq, Repr

/-- Per-frame external inputs: elapsed time, preferred screen size, the key
snapshot, and the pseudo-random draws consumed by `spawn_shapes`. -/
structure Input where
  dt : ℚ
  width : ℚ
  height : ℚ
  aDown : Bool
  dDown : Bool
  wDown : Bool
  sDown : Bool
  spacePressed : Bool
  escPressed : Bool
  roll : ℕ
  tSize : ℚ
  tX : ℚ
  tSpeed : ℚ
deriving DecidableEq, Repr

/-- Source `fn in_state(state)`: the run-condition
`res.current == state && res.next == state && res.previous == state`. -/
def in_state (s : GameState) (w : WorldState) : Bool :=
  decide (w.current = s) && decide (w.next = s) && decide (w.previous = s)

/-- Source `fn enter_state(state)`: the run-condition
`res.current == state && res.previous != state`. -/
def enter_state (s : GameState) (w : WorldState) : Bool :=
  decide (w.current = s) && decide (w.previous ≠ s)

/-- Source `fn leave_state(state)`: the run-condition
`res.current == state && res.next != state`. -/
def leave_state (s : GameState) (w : WorldState) : Bool :=
  decide (w.current = s) && decide (w.next ≠ s)

/-- Source `fn update_states`: the post-update commit
`previous := current; current := next`. -/
def update_states (w : WorldState) : WorldState :=
  { w with previous := w.current, current := w.next }

/-- Rust `f32::round`: round half away from zero. -/
def fround (q : ℚ) : ℤ :=
  if 0 ≤ q then ⌊q + 1 / 2⌋ else ⌈q - 1 / 2⌉

/-- quad_rand `gen_range(low, high)` on floats: `low + (high - low) * t` where
`t` is the generator's unit sample. -/
def genRange (low high t : ℚ) : ℚ :=
  low + (high - low) * t

/-- macroquad `clamp(x, lo, hi)`. -/
def mqClamp (x lo hi : ℚ) : ℚ :=
  if x < lo then lo else if x > hi then hi else x

/-- Source `fn update_main_menu` (state effect): on space, `state.next = Playing`.
(The escape branch, `std::process::exit(0)`, is handled by `frame` returning
`none`; the text drawing has no simulation effect.) -/
def update_main_menu (inp : Input) (w : WorldState) : WorldState :=
  if inp.spacePressed then { w with next := GameState.Playing } else w

/-- Source `fn update_paused` (state effect): on space, `state.next = Playing`. -/
def update_paused (inp : Input) (w : WorldState) : WorldState :=
  if inp.spacePressed then { w with next := GameState.Playing } else w

/-- Source `fn update_game_over` (state effect): on space, `state.next = MainMenu`. -/
def update_game_over (inp : Input) (w : WorldState) : WorldState :=
  if inp.spacePressed then { w with next := GameState.MainMenu } else w

/-- Source `fn update_playing`: on escape, `state.next = Paused`. -/
def update_playing (inp : Input) (w : WorldState) : WorldState :=
  if inp.escPressed then { w with next := GameState.Paused } else w

/-- Source `fn setup_player`: spawn the Player bundle with `speed = 200`,
`size = 32`, centered on the screen. -/
def setup_player (inp : Input) (w : WorldState) : WorldState :=
  { w with players :=
      w.players ++ [{ speed := 200,
                      shape := { size := 32, x := inp.width / 2, y := inp.height / 2 } }] }

/-- Source `fn teardown`: despawn every entity that has a `Shape` (players, fallers
and bullets all carry one). -/
def teardown (w : WorldState) : WorldState :=
  { w with players := [], fallers := [], bullets := [] }

/-- Whether a bullet's hitbox overlaps some faller of the snapshot (the inner
loop of `check_collisions`, with the bullet as `self`). -/
def bulletHits (fallers : List FallerE) (b : BulletE) : Bool :=
  fallers.any fun f => b.shape.collides_with f.shape

/-- Whether a faller's hitbox overlaps some bullet of the snapshot. -/
def fallerHitByBullet (bullets : List BulletE) (f : FallerE) : Bool :=
  bullets.any fun b => b.shape.collides_with f.shape

/-- The second loop of `check_collisions`: `s_faller.collides_with(player)`. -/
def fallerHitsPlayer (p : PlayerE) (f : FallerE) : Bool :=
  f.shape.collides_with p.shape

/-- Modelled from the spec: the score gained by one collision pass, "add
`size.round()` to score" for every overlapping (Bullet, Faller) pair the pass
checks (scoring is absent from `src/main.rs`).  Because commands are deferred,
the pass checks every pair of its snapshot, so the gain is summed over the
nested bullet/faller loops exactly as they run. -/
def collisionScoreDelta (bullets : List BulletE) (fallers : List FallerE) : ℤ :=
  (bullets.map fun b =>
    (((fallers.filter fun f => b.shape.collides_with f.shape).map
      fun f => fround f.shape.size)).sum).sum

/-- Source `fn check_collisions`: with deferred commands, a bullet is despawned iff
it overlaps some faller of the snapshot, and a faller is despawned iff it
overlaps some bullet (first loop) or the player (second loop); any
faller-player overlap requests `next = GameOver`.  The `Single` player
parameter skips the whole system unless exactly one player exists.  Score and
high score updates are modelled from the spec (see `collisionScoreDelta`). -/
def check_collisions (w : WorldState) : WorldState :=
  match w.players with
  | [p] =>
    let delta := collisionScoreDelta w.bullets w.fallers
    { w with
      bullets := w.bullets.filter fun b => !bulletHits w.fallers b,
      fallers := w.fallers.filter fun f =>
        !(fallerHitByBullet w.bullets f || fallerHitsPlayer p f),
      score := w.score + delta,
      highScore := max w.highScore (w.score + delta),
      next := if w.fallers.any (fallerHitsPlayer p) then GameState.GameOver else w.next }
  | _ => w

/-- The Faller bundle built by `spawn_shapes` from the three random unit
samples: `size = gen_range(16, 64)`, `x = gen_range(size/2, width - size/2)`,
`y = -size`, `speed = gen_range(50, 150)`. -/
def spawnedFaller (width tSize tX tSpeed : ℚ) : FallerE :=
  let size := genRange 16 64 tSize
  let min_x := size / 2
  let max_x := width - size / 2
  { speed := genRange 50 150 tSpeed,
    shape := { size := size, x := genRange min_x max_x tX, y := -size } }

/-- Source `fn spawn_shapes`: Bernoulli trial `rand::gen_range(0, 99) >= 95`; on
success spawn one Faller (see `spawnedFaller`). -/
def spawn_shapes (inp : Input) (w : WorldState) : WorldState :=
  if 95 ≤ inp.roll then
    { w with fallers := w.fallers ++ [spawnedFaller inp.width inp.tSize inp.tX inp.tSpeed] }
  else w

/-- Source `fn update_player`: sequential A/D/W/S moves by `speed * dt`, clamp to
`[0, width] × [0, height]`, then on a space edge spawn a Bullet of `size = 5`
and `speed = player.speed * 2` at the player's (clamped) position.  The
`Single` parameter skips the system unless exactly one player exists. -/
def update_player (inp : Input) (w : WorldState) : WorldState :=
  match w.players with
  | [p] =>
    let x1 := if inp.aDown then p.shape.x - p.speed * inp.dt else p.shape.x
    let x2 := if inp.dDown then x1 + p.speed * inp.dt else x1
    let y1 := if inp.wDown then p.shape.y - p.speed * inp.dt else p.shape.y
    let y2 := if inp.sDown then y1 + p.speed * inp.dt else y1
    let x3 := mqClamp x2 0 inp.width
    let y3 := mqClamp y2 0 inp.height
    let p' : PlayerE := { p with shape := { p.shape with x := x3, y := y3 } }
    { w with
      players := [p'],
      bullets :=
        if inp.spacePressed then
          w.bullets ++ [{ speed := p.speed * 2, shape := { x := x3, y := y3, size := 5 } }]
        else w.bullets }
  | _ => w

/-- One step of `fn update_shapes` on a single faller: `y += speed * dt`. -/
def moveFaller (dt : ℚ) (f : FallerE) : FallerE :=
  { f with shape := { f.shape with y := f.shape.y + f.speed * dt } }

/-- Source `fn update_shapes`: move every faller down by `speed * dt` and despawn it
if the moved `y` exceeds the screen height. -/
def update_shapes (inp : Input) (w : WorldState) : WorldState :=
  { w with fallers :=
      (w.fallers.map (moveFaller inp.dt)).filter fun f => !decide (f.shape.y > inp.height) }

/-- One step of `fn update_bullets` on a single bullet: `y -= speed * dt`. -/
def moveBullet (dt : ℚ) (b : BulletE) : BulletE :=
  { b with shape := { b.shape with y := b.shape.y - b.speed * dt } }

/-- Source `fn update_bullets`: move every bullet up by `speed * dt` and despawn it
if the moved `y` is below `0`. -/
def update_bullets (inp : Input) (w : WorldState) : WorldState :=
  { w with bullets :=
      (w.bullets.map (moveBullet inp.dt)).filter fun b => !decide (b.shape.y < 0) }

/-- Names for the six systems registered by
`schedule.add_systems((check_collisions, spawn_shapes, update_player,
update_shapes, update_bullets, render_shapes).run_if(in_state(Playing)))`. -/
inductive GSys where
  | checkCollisionsS
  | spawnShapesS
  | updatePlayerS
  | updateShapesS
  | updateBulletsS
  | renderShapesS
deriving DecidableEq, Repr

/-- Run one gameplay system (`render_shapes` draws only — no simulation
effect). -/
def runSys (s : GSys) (inp : Input) (w : WorldState) : WorldState :=
  match s with
  | GSys.checkCollisionsS => check_collisions w
  | GSys.spawnShapesS => spawn_shapes inp w
  | GSys.updatePlayerS => update_player inp w
  | GSys.updateShapesS => update_shapes inp w
  | GSys.updateBulletsS => update_bullets inp w
  | GSys.renderShapesS => w

/-- Run the gameplay systems in a given order. -/
def runGameplayOrder (order : List GSys) (inp : Input) (w : WorldState) : WorldState :=
  order.foldl (fun w s => runSys s inp w) w

/-- The tuple of gameplay systems as registered (insertion order).  The
registration carries no `.chain()`, so bevy_ecs guarantees no relative order:
any permutation of this list is a schedulable execution order. -/
def registeredGameplay : List GSys :=
  [GSys.checkCollisionsS, GSys.spawnShapesS, GSys.updatePlayerS,
   GSys.updateShapesS, GSys.updateBulletsS, GSys.renderShapesS]

/-- An execution order the schedule admits for the gameplay set: any
permutation of the registered systems (no ordering constraints exist). -/
def validGameplayOrder (order : List GSys) : Prop :=
  order.Perm registeredGameplay

/-- The first three systems of the chained handler group, each behind its
run-condition (conditions are evaluated just before each system, on the state
the earlier chained systems produced). -/
def runStateHandlers (inp : Input) (w : WorldState) : WorldState :=
  let w1 := if in_state GameState.MainMenu w then update_main_menu inp w else w
  let w2 := if in_state GameState.Paused w1 then update_paused inp w1 else w1
  if in_state GameState.GameOver w2 then update_game_over inp w2 else w2

/-- One frame of the main loop: the chained handler group in registration
order (`update_main_menu`, `update_paused`, `update_game_over`,
`setup_player`, `update_playing`, `teardown`, each behind its run-condition),
then the gameplay set behind its set-level `in_state(Playing)` condition
(canonically executed in insertion order), then the post-update commit
`update_states`.  `none` models `std::process::exit(0)` from the menu or
pause handler on escape. -/
def frame (inp : Input) (w : WorldState) : Option WorldState :=
  if (in_state GameState.MainMenu w && inp.escPressed) ||
     (in_state GameState.Paused w && inp.escPressed) then none
  else
    let w3 := runStateHandlers inp w
    let w4 := if enter_state GameState.Playing w3 then setup_player inp w3 else w3
    let w5 := if in_state GameState.Playing w4 then update_playing inp w4 else w4
    let w6 := if leave_state GameState.MainMenu w5 then teardown w5 else w5
    let w7 := if in_state GameState.Playing w6 then runGameplayOrder registeredGameplay inp w6
              else w6
    some (update_states w7)

/-- Run a list of frames (stops at `none`, i.e. on process exit). -/
def runFrames : List Input → WorldState → Option WorldState
  | [], w => some w
  | i :: is, w => (frame i w).bind (runFrames is)

/-- The initial world: `init_resource::<CurrentState>()` defaults the triple
to `MainMenu`; the arena starts empty. -/
def initialWorld : WorldState :=
  { previous := GameState.MainMenu, current := GameState.MainMenu,
    next := GameState.MainMenu, players := [], fallers := [], bullets := [],
    score := 0, highScore := 0 }

/-- A state the program can reach: the initial world, iterated by frames. -/
inductive Reachable : WorldState → Prop where
  | init : Reachable initialWorld
  | step {w w' : WorldState} (inp : Input) :
      Reachable w → frame inp w = some w' → Reachable w'

/-- The player-count invariant the code actually maintains between frames:
the commit leaves `next = current`; the run's first committed `Playing` state
(reached from `MainMenu`, whose leave-hook tore all entities down) has zero
players; every other `Playing` state, and every `Paused` or `GameOver` state,
has at least one player (the player is never despawned on leaving `Playing`,
and re-entering `Playing` from `Paused` spawns an additional one). -/
def playerInv (w : WorldState) : Prop :=
  w.next = w.current ∧
  (w.current = GameState.Playing → w.previous = GameState.MainMenu →
    w.players.length = 0) ∧
  (w.current = GameState.Playing → w.previous ≠ GameState.MainMenu →
    1 ≤ w.players.length) ∧
  (w.current = GameState.Paused → 1 ≤ w.players.length) ∧
  (w.current = GameState.GameOver → 1 ≤ w.players.length)

/-! ## Helper lemmas -/

theorem in_state_iff {s : GameState} {w : WorldState} :
    in_state s w = true ↔ w.current = s ∧ w.next = s ∧ w.previous = s := by
  simp [in_state, and_assoc]

theorem enter_state_iff {s : GameState} {w : WorldState} :
    enter_state s w = true ↔ w.current = s ∧ w.previous ≠ s := by
  simp [enter_state]

theorem leave_state_iff {s : GameState} {w : WorldState} :
    leave_state s w = true ↔ w.current = s ∧ w.next ≠ s := by
  simp [leave_state]

/-! ## C6: the edge predicates match their reference definitions -/

/-- C6: for every state triple and state `s`, `in_state(s)` holds iff
`previous == current == next == s`, `enter_state(s)` holds iff
`current == s` and `previous != s`, and `leave_state(s)` holds iff
`current == s` and `next != s`. -/
theorem C6_edge_predicates_reference :
    ∀ (w : WorldState) (s : GameState),
      (in_state s w = true ↔ w.previous = s ∧ w.current = s ∧ w.next = s) ∧
      (enter_state s w = true ↔ w.current = s ∧ w.previous ≠ s) ∧
      (leave_state s w = true ↔ w.current = s ∧ w.next ≠ s) := by
  intro w s
  refine ⟨?_, enter_state_iff, leave_state_iff⟩
  rw [in_state_iff]
  tauto

/-! ## C3: exclusivity of the edge predicates -/

/-- C3 counterexample: on the triple `previous = Paused`, `current = Playing`,
`next = GameOver`, both `enter_state(Playing)` and `leave_state(Playing)` are
true, so "at most one of `enter_state(s)`, `leave_state(s)`, `in_state(s)` is
true for a given `s`" fails as stated. -/
theorem C3_counterexample :
    enter_state GameState.Playing
      ⟨GameState.Paused, GameState.Playing, GameState.GameOver, [], [], [], 0, 0⟩ = true ∧
    leave_state GameState.Playing
      ⟨GameState.Paused, GameState.Playing, GameState.GameOver, [], [], [], 0, 0⟩ = true := by
  decide

/-- C3 amended: for every state triple and every state `s`, `in_state(s)`
excludes `enter_state(s)` and excludes `leave_state(s)` (`enter_state(s)` and
`leave_state(s)` may hold together when `previous ≠ s = current ≠ next`), and
exactly one state `s` satisfies `current == s`. -/
theorem C3_amended :
    ∀ (w : WorldState) (s : GameState),
      ¬(in_state s w = true ∧ enter_state s w = true) ∧
      ¬(in_state s w = true ∧ leave_state s w = true) ∧
      ∃! s' : GameState, w.current = s' := by
  intro w s
  refine ⟨?_, ?_, w.current, rfl, fun y hy => hy.symm⟩ <;>
    simp only [in_state_iff, enter_state_iff, leave_state_iff] <;> tauto

/-! ## C7: the commit step -/

/-- C7: one commit yields `previous' = current`, `current' = next` and leaves
`next` unchanged; a second commit with no intervening write to `next` settles
the triple (`previous = current = next`, so `in_state(current)` holds), and
any further commit leaves the state fixed. -/
theorem C7_commit_step :
    ∀ w : WorldState,
      (update_states w).previous = w.current ∧
      (update_states w).current = w.next ∧
      (update_states w).next = w.next ∧
      (update_states (update_states w)).previous = (update_states (update_states w)).current ∧
      (update_states (update_states w)).current = (update_states (update_states w)).next ∧
      in_state (update_states (update_states w)).current (update_states (update_states w)) = true ∧
      update_states (update_states (update_states w)) = update_states (update_states w) := by
  intro w
  refine ⟨rfl, rfl, rfl, rfl, rfl, ?_, rfl⟩
  simp [in_state, update_states]

/-! ## C2: bullet-obstacle consumption -/

/-- C2: with exactly one bullet and one faller whose AABBs overlap (and the
single player the `check_collisions` system requires), one collision pass
removes both entities, adds `round(faller.size)` to the score, and sets the
high score to `max(high_score, score)` (scoring modelled from the spec, see
`collisionScoreDelta`). -/
theorem C2_bullet_obstacle_consumption
    (w : WorldState) (p : PlayerE) (b : BulletE) (f : FallerE)
    (hp : w.players = [p]) (hb : w.bullets = [b]) (hf : w.fallers = [f])
    (hov : b.shape.collides_with f.shape = true) :
    (check_collisions w).bullets = [] ∧
    (check_collisions w).fallers = [] ∧
    (check_collisions w).score = w.score + fround f.shape.size ∧
    (check_collisions w).highScore =
      max w.highScore ((check_collisions w).score) := by
  simp [check_collisions, hp, hb, hf, bulletHits, fallerHitByBullet,
    collisionScoreDelta, hov]

/-- C2 witness: a concrete world with one player, one bullet at `(100, 100)`
of size 5 and one faller at `(95, 100)` of size 20; the hitboxes overlap and
the pass removes both, scoring `round(20) = 20`. -/
theorem C2_witness :
    (WorldState.players ⟨GameState.Playing, GameState.Playing, GameState.Playing,
        [⟨200, ⟨32, 400, 300⟩⟩], [⟨60, ⟨20, 95, 100⟩⟩], [⟨100, ⟨5, 100, 100⟩⟩], 3, 7⟩ =
      [⟨200, ⟨32, 400, 300⟩⟩]) ∧
    (Shape.collides_with ⟨5, 100, 100⟩ ⟨20, 95, 100⟩ = true) ∧
    (check_collisions ⟨GameState.Playing, GameState.Playing, GameState.Playing,
        [⟨200, ⟨32, 400, 300⟩⟩], [⟨60, ⟨20, 95, 100⟩⟩], [⟨100, ⟨5, 100, 100⟩⟩], 3, 7⟩).bullets = [] ∧
    (check_collisions ⟨GameState.Playing, GameState.Playing, GameState.Playing,
        [⟨200, ⟨32, 400, 300⟩⟩], [⟨60, ⟨20, 95, 100⟩⟩], [⟨100, ⟨5, 100, 100⟩⟩], 3, 7⟩).fallers = [] ∧
    (check_collisions ⟨GameState.Playing, GameState.Playing, GameState.Playing,
        [⟨200, ⟨32, 400, 300⟩⟩], [⟨60, ⟨20, 95, 100⟩⟩], [⟨100, ⟨5, 100, 100⟩⟩], 3, 7⟩).score =
      3 + fround 20 ∧
    (check_collisions ⟨GameState.Playing, GameState.Playing, GameState.Playing,
        [⟨200, ⟨32, 400, 300⟩⟩], [⟨60, ⟨20, 95, 100⟩⟩], [⟨100, ⟨5, 100, 100⟩⟩], 3, 7⟩).highScore =
      max 7 (check_collisions ⟨GameState.Playing, GameState.Playing, GameState.Playing,
        [⟨200, ⟨32, 400, 300⟩⟩], [⟨60, ⟨20, 95, 100⟩⟩], [⟨100, ⟨5, 100, 100⟩⟩], 3, 7⟩).score := by
  have h := C2_bullet_obstacle_consumption
    ⟨GameState.Playing, GameState.Playing, GameState.Playing,
      [⟨200, ⟨32, 400, 300⟩⟩], [⟨60, ⟨20, 95, 100⟩⟩], [⟨100, ⟨5, 100, 100⟩⟩], 3, 7⟩
    ⟨200, ⟨32, 400, 300⟩⟩ ⟨100, ⟨5, 100, 100⟩⟩ ⟨60, ⟨20, 95, 100⟩⟩
    rfl rfl rfl (by with_unfolding_all decide)
  exact ⟨rfl, by with_unfolding_all decide, h.1, h.2.1, h.2.2.1, h.2.2.2⟩

/-! ## C8: kinematics pass and boundary cleanup -/

/-- C8: after one kinematics pass (`update_shapes` then `update_bullets`) with
`dt ≥ 0`, no faller with `y > screen_height` and no bullet with `y < 0`
remains, and every surviving faller (resp. bullet) is some pre-pass faller
moved by `y += speed*dt` (resp. bullet moved by `y -= speed*dt`). -/
theorem C8_kinematics_cleanup (inp : Input) (w : WorldState) (hdt : 0 ≤ inp.dt) :
    (∀ f ∈ (update_bullets inp (update_shapes inp w)).fallers,
        f.shape.y ≤ inp.height ∧ ∃ f₀ ∈ w.fallers, f = moveFaller inp.dt f₀) ∧
    (∀ b ∈ (update_bullets inp (update_shapes inp w)).bullets,
        0 ≤ b.shape.y ∧ ∃ b₀ ∈ w.bullets, b = moveBullet inp.dt b₀) := by
  constructor
  · intro f hf
    have hf' : f ∈ (w.fallers.map (moveFaller inp.dt)).filter
        (fun f => !decide (f.shape.y > inp.height)) := hf
    rw [List.mem_filter] at hf'
    obtain ⟨hmem, hle⟩ := hf'
    rw [List.mem_map] at hmem
    obtain ⟨f₀, hf₀, rfl⟩ := hmem
    refine ⟨?_, f₀, hf₀, rfl⟩
    simpa using hle
  · intro b hb
    have hb' : b ∈ (w.bullets.map (moveBullet inp.dt)).filter
        (fun b => !decide (b.shape.y < 0)) := hb
    rw [List.mem_filter] at hb'
    obtain ⟨hmem, hge⟩ := hb'
    rw [List.mem_map] at hmem
    obtain ⟨b₀, hb₀, rfl⟩ := hmem
    refine ⟨?_, b₀, hb₀, rfl⟩
    simpa using hge

/-- C8 witness: a concrete pass with `dt = 1` on one faller that stays on
screen and one bullet that leaves through the top. -/
theorem C8_witness :
    (0 : ℚ) ≤ (1 : ℚ) ∧
    ((∀ f ∈ (update_bullets ⟨1, 800, 600, false, false, false, false, false, false, 0, 0, 0, 0⟩
          (update_shapes ⟨1, 800, 600, false, false, false, false, false, false, 0, 0, 0, 0⟩
            ⟨GameState.Playing, GameState.Playing, GameState.Playing,
              [⟨200, ⟨32, 400, 300⟩⟩], [⟨60, ⟨20, 100, 80⟩⟩], [⟨100, ⟨5, 100, 50⟩⟩], 0, 0⟩)).fallers,
        f.shape.y ≤ 600 ∧ ∃ f₀ ∈ [(⟨60, ⟨20, 100, 80⟩⟩ : FallerE)], f = moveFaller 1 f₀) ∧
     (∀ b ∈ (update_bullets ⟨1, 800, 600, false, false, false, false, false, false, 0, 0, 0, 0⟩
          (update_shapes ⟨1, 800, 600, false, false, false, false, false, false, 0, 0, 0, 0⟩
            ⟨GameState.Playing, GameState.Playing, GameState.Playing,
              [⟨200, ⟨32, 400, 300⟩⟩], [⟨60, ⟨20, 100, 80⟩⟩], [⟨100, ⟨5, 100, 50⟩⟩], 0, 0⟩)).bullets,
        0 ≤ b.shape.y ∧ ∃ b₀ ∈ [(⟨100, ⟨5, 100, 50⟩⟩ : BulletE)], b = moveBullet 1 b₀)) :=
  ⟨by norm_num,
   C8_kinematics_cleanup ⟨1, 800, 600, false, false, false, false, false, false, 0, 0, 0, 0⟩
     ⟨GameState.Playing, GameState.Playing, GameState.Playing,
       [⟨200, ⟨32, 400, 300⟩⟩], [⟨60, ⟨20, 100, 80⟩⟩], [⟨100, ⟨5, 100, 50⟩⟩], 0, 0⟩
     (by norm_num)⟩

/-! ## C9: spawn bounds -/

/-- C9 counterexample: on a screen of width 16, the unit samples
`tSize = 1/3`, `tX = 0` (both legal, i.e. in `[0, 1)`) produce a faller of
size 32 at `x = 16`, violating `x ≤ screen_width - size/2 = 0`: the spawn
does not clamp when `min_x > max_x`. -/
theorem C9_counterexample :
    (0:ℚ) ≤ 1/3 ∧ (1/3:ℚ) < 1 ∧ (0:ℚ) ≤ 0 ∧ (0:ℚ) < 1 ∧
    ¬((spawnedFaller 16 (1/3) 0 0).shape.x ≤
        16 - (spawnedFaller 16 (1/3) 0 0).shape.size / 2) := by
  refine ⟨by norm_num, by norm_num, le_refl 0, by norm_num, ?_⟩
  with_unfolding_all decide

/-- C9 amended: every spawned faller has `size ∈ [16, 64)`,
`speed ∈ [50, 150)` and `y < 0`; and whenever the spawned size fits the
screen (`size ≤ screen_width`, i.e. `min_x ≤ max_x`), its horizontal position
satisfies `size/2 ≤ x ≤ screen_width - size/2`.  When `min_x > max_x` the
code does not clamp: the sampled `x` then lies outside the claimed range (see
the counterexample). -/
theorem C9_amended (width tSize tX tSpeed : ℚ)
    (h1 : 0 ≤ tSize) (h2 : tSize < 1) (h3 : 0 ≤ tX) (h4 : tX < 1)
    (h5 : 0 ≤ tSpeed) (h6 : tSpeed < 1) :
    16 ≤ (spawnedFaller width tSize tX tSpeed).shape.size ∧
    (spawnedFaller width tSize tX tSpeed).shape.size < 64 ∧
    50 ≤ (spawnedFaller width tSize tX tSpeed).speed ∧
    (spawnedFaller width tSize tX tSpeed).speed < 150 ∧
    (spawnedFaller width tSize tX tSpeed).shape.y < 0 ∧
    ((spawnedFaller width tSize tX tSpeed).shape.size ≤ width →
      (spawnedFaller width tSize tX tSpeed).shape.size / 2 ≤
          (spawnedFaller width tSize tX tSpeed).shape.x ∧
      (spawnedFaller width tSize tX tSpeed).shape.x ≤
          width - (spawnedFaller width tSize tX tSpeed).shape.size / 2) := by
  simp only [spawnedFaller, genRange]
  refine ⟨by nlinarith, by nlinarith, by nlinarith, by nlinarith, by nlinarith, ?_⟩
  intro hw
  constructor
  · nlinarith [mul_nonneg (by nlinarith : (0:ℚ) ≤ width - (16 + (64 - 16) * tSize)) h3]
  · nlinarith [mul_le_of_le_one_right
      (by nlinarith : (0:ℚ) ≤ width - (16 + (64 - 16) * tSize)) (le_of_lt h4)]

/-- C9 witness: the amended bounds instantiated on an 800-wide screen with
all three unit samples `1/2`. -/
theorem C9_amended_witness :
    ((0:ℚ) ≤ 1/2 ∧ (1/2:ℚ) < 1) ∧
    (16 ≤ (spawnedFaller 800 (1/2) (1/2) (1/2)).shape.size ∧
     (spawnedFaller 800 (1/2) (1/2) (1/2)).shape.size < 64 ∧
     50 ≤ (spawnedFaller 800 (1/2) (1/2) (1/2)).speed ∧
     (spawnedFaller 800 (1/2) (1/2) (1/2)).speed < 150 ∧
     (spawnedFaller 800 (1/2) (1/2) (1/2)).shape.y < 0 ∧
     ((spawnedFaller 800 (1/2) (1/2) (1/2)).shape.size ≤ 800 →
       (spawnedFaller 800 (1/2) (1/2) (1/2)).shape.size / 2 ≤
           (spawnedFaller 800 (1/2) (1/2) (1/2)).shape.x ∧
       (spawnedFaller 800 (1/2) (1/2) (1/2)).shape.x ≤
           800 - (spawnedFaller 800 (1/2) (1/2) (1/2)).shape.size / 2)) :=
  ⟨⟨by norm_num, by norm_num⟩,
   C9_amended 800 (1/2) (1/2) (1/2) (by norm_num) (by norm_num) (by norm_num)
     (by norm_num) (by norm_num) (by norm_num)⟩

/-! ## C4: the gameplay systems carry no ordering constraint -/

/-- C4 (code bug evidence): the gameplay tuple is registered without
`.chain()`, so any permutation of it is a schedulable order.  The order that
runs kinematics before `check_collisions` is valid, and on a concrete world
(one bullet descending toward one riser — pre-movement hitboxes disjoint,
post-movement hitboxes overlapping, `dt = 7/10`) it despawns both entities,
while the collision-first insertion order keeps both: the code does not
guarantee that collision resolution runs before this frame's movement. -/
theorem C4_gameplay_order_not_enforced :
    validGameplayOrder
      [GSys.updateShapesS, GSys.updateBulletsS, GSys.checkCollisionsS,
       GSys.spawnShapesS, GSys.updatePlayerS, GSys.renderShapesS] ∧
    (runGameplayOrder registeredGameplay
        ⟨7/10, 800, 600, false, false, false, false, false, false, 0, 0, 0, 0⟩
        ⟨GameState.Playing, GameState.Playing, GameState.Playing,
          [⟨200, ⟨32, 400, 300⟩⟩], [⟨60, ⟨20, 100, 80⟩⟩],
          [⟨100, ⟨5, 100, 200⟩⟩], 0, 0⟩).fallers.length = 1 ∧
    (runGameplayOrder registeredGameplay
        ⟨7/10, 800, 600, false, false, false, false, false, false, 0, 0, 0, 0⟩
        ⟨GameState.Playing, GameState.Playing, GameState.Playing,
          [⟨200, ⟨32, 400, 300⟩⟩], [⟨60, ⟨20, 100, 80⟩⟩],
          [⟨100, ⟨5, 100, 200⟩⟩], 0, 0⟩).bullets.length = 1 ∧
    (runGameplayOrder
        [GSys.updateShapesS, GSys.updateBulletsS, GSys.checkCollisionsS,
         GSys.spawnShapesS, GSys.updatePlayerS, GSys.renderShapesS]
        ⟨7/10, 800, 600, false, false, false, false, false, false, 0, 0, 0, 0⟩
        ⟨GameState.Playing, GameState.Playing, GameState.Playing,
          [⟨200, ⟨32, 400, 300⟩⟩], [⟨60, ⟨20, 100, 80⟩⟩],
          [⟨100, ⟨5, 100, 200⟩⟩], 0, 0⟩).fallers.length = 0 ∧
    (runGameplayOrder
        [GSys.updateShapesS, GSys.updateBulletsS, GSys.checkCollisionsS,
         GSys.spawnShapesS, GSys.updatePlayerS, GSys.renderShapesS]
        ⟨7/10, 800, 600, false, false, false, false, false, false, 0, 0, 0, 0⟩
        ⟨GameState.Playing, GameState.Playing, GameState.Playing,
          [⟨200, ⟨32, 400, 300⟩⟩], [⟨60, ⟨20, 100, 80⟩⟩],
          [⟨100, ⟨5, 100, 200⟩⟩], 0, 0⟩).bullets.length = 0 := by
  refine ⟨?_, ?_, ?_, ?_, ?_⟩
  · unfold validGameplayOrder registeredGameplay
    decide
  all_goals with_unfolding_all decide

/-! ## C5: despawn visibility within one collision pass -/

/-- Lemma: `List.any` only depends on the multiset of elements. -/
theorem anyPerm {α : Type} {l₁ l₂ : List α} (h : l₁.Perm l₂) (p : α → Bool) :
    l₁.any p = l₂.any p := by
  rw [Bool.eq_iff_iff]
  simp only [List.any_eq_true]
  exact ⟨fun ⟨x, hx, hp⟩ => ⟨x, h.mem_iff.mp hx, hp⟩,
         fun ⟨x, hx, hp⟩ => ⟨x, h.mem_iff.mpr hx, hp⟩⟩

/-- The modelled score gain of a collision pass only depends on the multisets
of bullets and fallers. -/
theorem collisionScoreDelta_perm {b₁ b₂ : List BulletE} {f₁ f₂ : List FallerE}
    (hb : b₁.Perm b₂) (hf : f₁.Perm f₂) :
    collisionScoreDelta b₁ f₁ = collisionScoreDelta b₂ f₂ := by
  unfold collisionScoreDelta
  have h1 : (fun (b : BulletE) =>
      ((f₁.filter fun f => b.shape.collides_with f.shape).map
        fun f => fround f.shape.size).sum) =
      (fun (b : BulletE) =>
      ((f₂.filter fun f => b.shape.collides_with f.shape).map
        fun f => fround f.shape.size).sum) :=
    funext fun b => List.Perm.sum_eq ((hf.filter _).map _)
  rw [h1]
  exact List.Perm.sum_eq (hb.map _)

/-- C5 counterexample: a pass over one bullet and two fallers, where the
bullet overlaps both fallers and neither faller overlaps the player, removes
BOTH fallers and scores both sizes: despawns are deferred to the end of the
pass, so the already-consumed bullet still participates in the second
faller's overlap check (it is "consumed" twice), contradicting the claim. -/
theorem C5_counterexample :
    (WorldState.fallers ⟨GameState.Playing, GameState.Playing, GameState.Playing,
        [⟨200, ⟨32, 400, 300⟩⟩],
        [⟨60, ⟨20, 95, 100⟩⟩, ⟨80, ⟨30, 110, 105⟩⟩],
        [⟨100, ⟨5, 100, 100⟩⟩], 0, 0⟩).length = 2 ∧
    (WorldState.bullets ⟨GameState.Playing, GameState.Playing, GameState.Playing,
        [⟨200, ⟨32, 400, 300⟩⟩],
        [⟨60, ⟨20, 95, 100⟩⟩, ⟨80, ⟨30, 110, 105⟩⟩],
        [⟨100, ⟨5, 100, 100⟩⟩], 0, 0⟩).length = 1 ∧
    (WorldState.fallers ⟨GameState.Playing, GameState.Playing, GameState.Playing,
        [⟨200, ⟨32, 400, 300⟩⟩],
        [⟨60, ⟨20, 95, 100⟩⟩, ⟨80, ⟨30, 110, 105⟩⟩],
        [⟨100, ⟨5, 100, 100⟩⟩], 0, 0⟩).all
      (fun f => !fallerHitsPlayer ⟨200, ⟨32, 400, 300⟩⟩ f) = true ∧
    (check_collisions ⟨GameState.Playing, GameState.Playing, GameState.Playing,
        [⟨200, ⟨32, 400, 300⟩⟩],
        [⟨60, ⟨20, 95, 100⟩⟩, ⟨80, ⟨30, 110, 105⟩⟩],
        [⟨100, ⟨5, 100, 100⟩⟩], 0, 0⟩).fallers = [] ∧
    (check_collisions ⟨GameState.Playing, GameState.Playing, GameState.Playing,
        [⟨200, ⟨32, 400, 300⟩⟩],
        [⟨60, ⟨20, 95, 100⟩⟩, ⟨80, ⟨30, 110, 105⟩⟩],
        [⟨100, ⟨5, 100, 100⟩⟩], 0, 0⟩).bullets = [] ∧
    (check_collisions ⟨GameState.Playing, GameState.Playing, GameState.Playing,
        [⟨200, ⟨32, 400, 300⟩⟩],
        [⟨60, ⟨20, 95, 100⟩⟩, ⟨80, ⟨30, 110, 105⟩⟩],
        [⟨100, ⟨5, 100, 100⟩⟩], 0, 0⟩).score = fround 20 + fround 30 := by
  refine ⟨rfl, rfl, ?_, ?_, ?_, ?_⟩ <;> with_unfolding_all decide

/-- C5 amended: despawns are deferred, so every (bullet, faller) pair of the
pass's snapshot is checked and a bullet overlapping several fallers despawns
all of them; what does hold is the claim's order-independence: the pass's
outcome (surviving multisets, score, high score, requested next state) is
invariant under any reordering of the bullet and faller lists. -/
theorem C5_amended (w w' : WorldState)
    (hpl : w'.players = w.players) (hb : w'.bullets.Perm w.bullets)
    (hf : w'.fallers.Perm w.fallers) (hsc : w'.score = w.score)
    (hh : w'.highScore = w.highScore) (hn : w'.next = w.next) :
    (check_collisions w').bullets.Perm (check_collisions w).bullets ∧
    (check_collisions w').fallers.Perm (check_collisions w).fallers ∧
    (check_collisions w').score = (check_collisions w).score ∧
    (check_collisions w').highScore = (check_collisions w).highScore ∧
    (check_collisions w').next = (check_collisions w).next := by
  rcases hP : w.players with _ | ⟨p, ps⟩
  · rw [hP] at hpl
    simp only [check_collisions, hpl, hP]
    exact ⟨hb, hf, hsc, hh, hn⟩
  rcases ps with _ | ⟨q, rest⟩
  · rw [hP] at hpl
    simp only [check_collisions, hpl, hP]
    have hbullet : (fun (b : BulletE) => !bulletHits w'.fallers b) =
        (fun (b : BulletE) => !bulletHits w.fallers b) :=
      funext fun b => by unfold bulletHits; rw [anyPerm hf]
    have hfaller : (fun (f : FallerE) =>
        !(fallerHitByBullet w'.bullets f || fallerHitsPlayer p f)) =
        (fun (f : FallerE) =>
        !(fallerHitByBullet w.bullets f || fallerHitsPlayer p f)) :=
      funext fun f => by unfold fallerHitByBullet; rw [anyPerm hb]
    refine ⟨?_, ?_, ?_, ?_, ?_⟩
    · rw [hbullet]
      exact hb.filter _
    · rw [hfaller]
      exact hf.filter _
    · rw [hsc, collisionScoreDelta_perm hb hf]
    · rw [hh, hsc, collisionScoreDelta_perm hb hf]
    · rw [anyPerm hf (fallerHitsPlayer p), hn]
  · rw [hP] at hpl
    simp only [check_collisions, hpl, hP]
    exact ⟨hb, hf, hsc, hh, hn⟩

/-- C5 witness: the order-independence theorem applied to a concrete world
and the same world with its two fallers swapped. -/
theorem C5_amended_witness :
    ([(⟨80, ⟨30, 110, 105⟩⟩ : FallerE), ⟨60, ⟨20, 95, 100⟩⟩].Perm
       [⟨60, ⟨20, 95, 100⟩⟩, ⟨80, ⟨30, 110, 105⟩⟩]) ∧
    ((check_collisions ⟨GameState.Playing, GameState.Playing, GameState.Playing,
        [⟨200, ⟨32, 400, 300⟩⟩],
        [⟨80, ⟨30, 110, 105⟩⟩, ⟨60, ⟨20, 95, 100⟩⟩],
        [⟨100, ⟨5, 100, 100⟩⟩], 0, 0⟩).fallers.Perm
      (check_collisions ⟨GameState.Playing, GameState.Playing, GameState.Playing,
        [⟨200, ⟨32, 400, 300⟩⟩],
        [⟨60, ⟨20, 95, 100⟩⟩, ⟨80, ⟨30, 110, 105⟩⟩],
        [⟨100, ⟨5, 100, 100⟩⟩], 0, 0⟩).fallers) ∧
    ((check_collisions ⟨GameState.Playing, GameState.Playing, GameState.Playing,
        [⟨200, ⟨32, 400, 300⟩⟩],
        [⟨80, ⟨30, 110, 105⟩⟩, ⟨60, ⟨20, 95, 100⟩⟩],
        [⟨100, ⟨5, 100, 100⟩⟩], 0, 0⟩).score =
      (check_collisions ⟨GameState.Playing, GameState.Playing, GameState.Playing,
        [⟨200, ⟨32, 400, 300⟩⟩],
        [⟨60, ⟨20, 95, 100⟩⟩, ⟨80, ⟨30, 110, 105⟩⟩],
        [⟨100, ⟨5, 100, 100⟩⟩], 0, 0⟩).score) := by
  have h := C5_amended
    ⟨GameState.Playing, GameState.Playing, GameState.Playing,
      [⟨200, ⟨32, 400, 300⟩⟩],
      [⟨60, ⟨20, 95, 100⟩⟩, ⟨80, ⟨30, 110, 105⟩⟩],
      [⟨100, ⟨5, 100, 100⟩⟩], 0, 0⟩
    ⟨GameState.Playing, GameState.Playing, GameState.Playing,
      [⟨200, ⟨32, 400, 300⟩⟩],
      [⟨80, ⟨30, 110, 105⟩⟩, ⟨60, ⟨20, 95, 100⟩⟩],
      [⟨100, ⟨5, 100, 100⟩⟩], 0, 0⟩
    rfl (List.Perm.refl _) (by with_unfolding_all decide) rfl rfl rfl
  exact ⟨by with_unfolding_all decide, h.2.1, h.2.2.1⟩

/-! ## C10: the world is frozen outside active play -/

/-- The menu/pause/game-over handler chain writes only `next`: every other
field of the world is preserved. -/
theorem runStateHandlers_spec (inp : Input) (w : WorldState) :
    (runStateHandlers inp w).previous = w.previous ∧
    (runStateHandlers inp w).current = w.current ∧
    (runStateHandlers inp w).players = w.players ∧
    (runStateHandlers inp w).fallers = w.fallers ∧
    (runStateHandlers inp w).bullets = w.bullets ∧
    (runStateHandlers inp w).score = w.score ∧
    (runStateHandlers inp w).highScore = w.highScore := by
  simp only [runStateHandlers, update_main_menu, update_paused, update_game_over]
  split_ifs <;> exact ⟨rfl, rfl, rfl, rfl, rfl, rfl, rfl⟩

/-- C10: on a frame where the code's conditions `enter_state(Playing)`,
`leave_state(MainMenu)` and `in_state(Playing)` are all false (evaluated, as
the chained schedule does, after the menu handlers have written `next`), the
frame spawns nothing, despawns nothing, and leaves every entity untouched. -/
theorem C10_world_frozen_outside_play (inp : Input) (w w' : WorldState)
    (h1 : enter_state GameState.Playing (runStateHandlers inp w) = false)
    (h2 : leave_state GameState.MainMenu (runStateHandlers inp w) = false)
    (h3 : in_state GameState.Playing (runStateHandlers inp w) = false)
    (hw : frame inp w = some w') :
    w'.players = w.players ∧ w'.fallers = w.fallers ∧ w'.bullets = w.bullets := by
  obtain ⟨hprev, hcur, hpl, hfa, hbu, hsc, hhs⟩ := runStateHandlers_spec inp w
  unfold frame at hw
  by_cases hex : (in_state GameState.MainMenu w && inp.escPressed ||
      (in_state GameState.Paused w && inp.escPressed)) = true
  · rw [if_pos hex] at hw
    exact Option.noConfusion hw
  · rw [if_neg hex] at hw
    simp only [h1, h2, h3, Bool.false_eq_true, if_false, Option.some.injEq] at hw
    subst hw
    exact ⟨hpl, hfa, hbu⟩

/-- C10 witness: on the initial (settled `MainMenu`) world with no keys
pressed, none of the three conditions holds and the frame leaves the (empty)
arena unchanged. -/
theorem C10_witness :
    (enter_state GameState.Playing
      (runStateHandlers ⟨0, 800, 600, false, false, false, false, false, false, 0, 0, 0, 0⟩
        initialWorld) = false) ∧
    (leave_state GameState.MainMenu
      (runStateHandlers ⟨0, 800, 600, false, false, false, false, false, false, 0, 0, 0, 0⟩
        initialWorld) = false) ∧
    (in_state GameState.Playing
      (runStateHandlers ⟨0, 800, 600, false, false, false, false, false, false, 0, 0, 0, 0⟩
        initialWorld) = false) ∧
    (frame ⟨0, 800, 600, false, false, false, false, false, false, 0, 0, 0, 0⟩
        initialWorld = some initialWorld) ∧
    (initialWorld.players = initialWorld.players ∧
     initialWorld.fallers = initialWorld.fallers ∧
     initialWorld.bullets = initialWorld.bullets) := by
  refine ⟨?_, ?_, ?_, ?_, ?_⟩
  · with_unfolding_all decide
  · with_unfolding_all decide
  · with_unfolding_all decide
  · with_unfolding_all decide
  · exact C10_world_frozen_outside_play
      ⟨0, 800, 600, false, false, false, false, false, false, 0, 0, 0, 0⟩
      initialWorld initialWorld
      (by with_unfolding_all decide) (by with_unfolding_all decide)
      (by with_unfolding_all decide) (by with_unfolding_all decide)

/-! ## C1: player lifecycle across reachable states -/

/-- No gameplay system touches the state triple's `previous`/`current` or the
number of players (`check_collisions` and `update_player` never spawn or
despawn a player; `update_player` rewrites the single player in place). -/
theorem runSys_frame_fields (s : GSys) (inp : Input) (w : WorldState) :
    (runSys s inp w).previous = w.previous ∧
    (runSys s inp w).current = w.current ∧
    (runSys s inp w).players.length = w.players.length := by
  rcases s with _ | _ | _ | _ | _ | _
  · simp only [runSys]
    rcases hP : w.players with _ | ⟨p, ps⟩
    · simp [check_collisions, hP]
    · rcases ps with _ | ⟨q, r⟩ <;> simp [check_collisions, hP]
  · simp only [runSys, spawn_shapes]
    split <;> exact ⟨rfl, rfl, rfl⟩
  · simp only [runSys]
    rcases hP : w.players with _ | ⟨p, ps⟩
    · simp [update_player, hP]
    · rcases ps with _ | ⟨q, r⟩ <;> simp [update_player, hP]
  · exact ⟨rfl, rfl, rfl⟩
  · exact ⟨rfl, rfl, rfl⟩
  · exact ⟨rfl, rfl, rfl⟩

/-- Folding the gameplay systems preserves `previous`, `current` and the
player count. -/
theorem runGameplayOrder_fields (order : List GSys) (inp : Input) (w : WorldState) :
    (runGameplayOrder order inp w).previous = w.previous ∧
    (runGameplayOrder order inp w).current = w.current ∧
    (runGameplayOrder order inp w).players.length = w.players.length := by
  induction order generalizing w with
  | nil => exact ⟨rfl, rfl, rfl⟩
  | cons s rest ih =>
    have he : runGameplayOrder (s :: rest) inp w = runGameplayOrder rest inp (runSys s inp w) :=
      rfl
    obtain ⟨h1, h2, h3⟩ := ih (runSys s inp w)
    obtain ⟨g1, g2, g3⟩ := runSys_frame_fields s inp w
    rw [he]
    exact ⟨h1.trans g1, h2.trans g2, h3.trans g3⟩

/-- A gameplay system either leaves `next` unchanged or requests `GameOver`
(only `check_collisions` writes `next`). -/
theorem runSys_next (s : GSys) (inp : Input) (w : WorldState) :
    (runSys s inp w).next = w.next ∨ (runSys s inp w).next = GameState.GameOver := by
  rcases s with _ | _ | _ | _ | _ | _
  · simp only [runSys]
    rcases hP : w.players with _ | ⟨p, ps⟩
    · left; simp [check_collisions, hP]
    · rcases ps with _ | ⟨q, r⟩
      · cases hAny : w.fallers.any (fallerHitsPlayer p)
        · left; simp [check_collisions, hP, hAny]
        · right; simp [check_collisions, hP, hAny]
      · left; simp [check_collisions, hP]
  · left
    simp only [runSys, spawn_shapes]
    split <;> rfl
  · simp only [runSys]
    rcases hP : w.players with _ | ⟨p, ps⟩
    · left; simp [update_player, hP]
    · rcases ps with _ | ⟨q, r⟩ <;> (left; simp [update_player, hP])
  · left; rfl
  · left; rfl
  · left; rfl

/-- After the gameplay fold, `next` is either the incoming `next` or
`GameOver`. -/
theorem runGameplayOrder_next (order : List GSys) (inp : Input) (w : WorldState) :
    (runGameplayOrder order inp w).next = w.next ∨
    (runGameplayOrder order inp w).next = GameState.GameOver := by
  induction order generalizing w with
  | nil => left; rfl
  | cons s rest ih =>
    have he : runGameplayOrder (s :: rest) inp w = runGameplayOrder rest inp (runSys s inp w) :=
      rfl
    rw [he]
    rcases ih (runSys s inp w) with h | h
    · rw [h]; exact runSys_next s inp w
    · right; exact h

/-- One frame preserves the player-count invariant. -/
theorem playerInv_step (inp : Input) (w w' : WorldState)
    (hI : playerInv w) (hw : frame inp w = some w') : playerInv w' := by
  obtain ⟨hnc, hPM, hPn, hPa, hGO⟩ := hI
  unfold frame at hw
  by_cases hex : (in_state GameState.MainMenu w && inp.escPressed ||
      (in_state GameState.Paused w && inp.escPressed)) = true
  · rw [if_pos hex] at hw
    exact Option.noConfusion hw
  rw [if_neg hex] at hw
  rcases hcur : w.current with _ | _ | _ | _
  -- current = MainMenu
  · have hnx : w.next = GameState.MainMenu := by rw [hnc, hcur]
    by_cases hprev : w.previous = GameState.MainMenu
    · by_cases hsp : inp.spacePressed = true
      · -- settled MainMenu, fire pressed: teardown runs, commit to Playing
        simp [runStateHandlers, update_main_menu, update_paused, update_game_over,
          update_playing, setup_player, teardown, in_state, enter_state, leave_state,
          hcur, hnx, hprev, hsp] at hw
        subst hw
        simp [playerInv, update_states, hcur]
      · -- settled MainMenu, no fire: nothing happens
        simp [runStateHandlers, update_main_menu, update_paused, update_game_over,
          update_playing, setup_player, teardown, in_state, enter_state, leave_state,
          hcur, hnx, hprev, hsp] at hw
        subst hw
        simp [playerInv, update_states, hcur, hnx]
    · -- MainMenu not settled: handler does not run
      simp [runStateHandlers, update_main_menu, update_paused, update_game_over,
        update_playing, setup_player, teardown, in_state, enter_state, leave_state,
        hcur, hnx, hprev] at hw
      subst hw
      simp [playerInv, update_states, hcur, hnx]
  -- current = Playing
  · have hnx : w.next = GameState.Playing := by rw [hnc, hcur]
    by_cases hprev : w.previous = GameState.Playing
    · have hlen : 1 ≤ w.players.length := hPn hcur (by rw [hprev]; decide)
      by_cases hesc : inp.escPressed = true
      · -- settled Playing, escape: pause requested, gameplay set skipped
        simp [runStateHandlers, update_main_menu, update_paused, update_game_over,
          update_playing, setup_player, teardown, in_state, enter_state, leave_state,
          hcur, hnx, hprev, hesc] at hw
        subst hw
        simp [playerInv, update_states, hcur, hlen]
      · -- settled Playing, no escape: the gameplay set runs
        simp [runStateHandlers, update_main_menu, update_paused, update_game_over,
          update_playing, setup_player, teardown, in_state, enter_state, leave_state,
          hcur, hnx, hprev, hesc] at hw
        subst hw
        obtain ⟨hg1, hg2, hg3⟩ := runGameplayOrder_fields registeredGameplay inp w
        have hnext7 := runGameplayOrder_next registeredGameplay inp w
        refine ⟨rfl, ?_, ?_, ?_, ?_⟩
        · intro _ h2
          simp only [update_states] at h2
          rw [hg2, hcur] at h2
          exact absurd h2 (by decide)
        · intro _ _
          exact le_of_le_of_eq hlen hg3.symm
        · intro h
          simp only [update_states] at h
          rcases hnext7 with h7 | h7 <;> rw [h7] at h
          · rw [hnx] at h; exact absurd h (by decide)
          · exact absurd h (by decide)
        · intro _
          exact le_of_le_of_eq hlen hg3.symm
    · -- first frame in Playing: setup_player spawns one player
      simp [runStateHandlers, update_main_menu, update_paused, update_game_over,
        update_playing, setup_player, teardown, in_state, enter_state, leave_state,
        hcur, hnx, hprev] at hw
      subst hw
      simp [playerInv, update_states, hcur, hnx]
  -- current = Paused
  · have hnx : w.next = GameState.Paused := by rw [hnc, hcur]
    have hlen : 1 ≤ w.players.length := hPa hcur
    by_cases hprev : w.previous = GameState.Paused
    · have hesc : inp.escPressed = false := by
        cases h : inp.escPressed
        · rfl
        · exfalso
          apply hex
          have hin : in_state GameState.Paused w = true := by
            simp [in_state, hcur, hnx, hprev]
          simp [hin, h]
      by_cases hsp : inp.spacePressed = true
      · -- settled Paused, fire: resume requested
        simp [runStateHandlers, update_main_menu, update_paused, update_game_over,
          update_playing, setup_player, teardown, in_state, enter_state, leave_state,
          hcur, hnx, hprev, hsp, hesc] at hw
        subst hw
        simp [playerInv, update_states, hcur, hlen]
      · -- settled Paused, no input
        simp [runStateHandlers, update_main_menu, update_paused, update_game_over,
          update_playing, setup_player, teardown, in_state, enter_state, leave_state,
          hcur, hnx, hprev, hsp, hesc] at hw
        subst hw
        simp [playerInv, update_states, hcur, hnx, hlen]
    · -- Paused not settled
      simp [runStateHandlers, update_main_menu, update_paused, update_game_over,
        update_playing, setup_player, teardown, in_state, enter_state, leave_state,
        hcur, hnx, hprev] at hw
      subst hw
      simp [playerInv, update_states, hcur, hnx, hlen]
  -- current = GameOver
  · have hnx : w.next = GameState.GameOver := by rw [hnc, hcur]
    have hlen : 1 ≤ w.players.length := hGO hcur
    by_cases hprev : w.previous = GameState.GameOver
    · by_cases hsp : inp.spacePressed = true
      · -- settled GameOver, fire: back to the menu
        simp [runStateHandlers, update_main_menu, update_paused, update_game_over,
          update_playing, setup_player, teardown, in_state, enter_state, leave_state,
          hcur, hnx, hprev, hsp] at hw
        subst hw
        simp [playerInv, update_states, hcur]
      · simp [runStateHandlers, update_main_menu, update_paused, update_game_over,
          update_playing, setup_player, teardown, in_state, enter_state, leave_state,
          hcur, hnx, hprev, hsp] at hw
        subst hw
        simp [playerInv, update_states, hcur, hnx, hlen]
    · simp [runStateHandlers, update_main_menu, update_paused, update_game_over,
        update_playing, setup_player, teardown, in_state, enter_state, leave_state,
        hcur, hnx, hprev] at hw
      subst hw
      simp [playerInv, update_states, hcur, hnx, hlen]

/-- C1 counterexample: from the initial state, the input trace
space / - / escape reaches a state with `current = Paused` and ONE live
player (the player is only despawned on leaving `MainMenu`, not on leaving
`Playing`), and continuing with - / space / - resumes play and reaches a
settled `Playing` state with TWO live players (`enter_state(Playing)` fires
again on resume and spawns a second player). -/
theorem C1_counterexample :
    (Option.map (fun w => (w.current, w.players.length))
      (runFrames
        [⟨0, 800, 600, false, false, false, false, true, false, 0, 0, 0, 0⟩,
         ⟨0, 800, 600, false, false, false, false, false, false, 0, 0, 0, 0⟩,
         ⟨0, 800, 600, false, false, false, false, false, true, 0, 0, 0, 0⟩]
        initialWorld) = some (GameState.Paused, 1)) ∧
    (Option.map (fun w => (w.current, w.players.length))
      (runFrames
        [⟨0, 800, 600, false, false, false, false, true, false, 0, 0, 0, 0⟩,
         ⟨0, 800, 600, false, false, false, false, false, false, 0, 0, 0, 0⟩,
         ⟨0, 800, 600, false, false, false, false, false, true, 0, 0, 0, 0⟩,
         ⟨0, 800, 600, false, false, false, false, false, false, 0, 0, 0, 0⟩,
         ⟨0, 800, 600, false, false, false, false, true, false, 0, 0, 0, 0⟩,
         ⟨0, 800, 600, false, false, false, false, false, false, 0, 0, 0, 0⟩]
        initialWorld) = some (GameState.Playing, 2)) := by
  constructor <;> with_unfolding_all decide

/-- C1 amended: in every reachable state, `next = current` (the commit leaves
the triple in that shape); a `Playing` state whose `previous` is `MainMenu`
(the run's first committed frame, right after teardown) has zero players; and
every other `Playing` state, and every `Paused` or `GameOver` state, has AT
LEAST one live player.  The player persists outside `Playing` (it is torn
down only when leaving `MainMenu`), and resuming from `Paused` spawns an
extra player, so "exactly one while Playing, zero otherwise" does not hold. -/
theorem C1_amended : ∀ w : WorldState, Reachable w → playerInv w := by
  intro w h
  induction h with
  | init => unfold playerInv; decide
  | step inp hr hf ih => exact playerInv_step _ _ _ ih hf

/-- C1 witness: the invariant holds at the initial state, which is reachable. -/
theorem C1_amended_witness : playerInv initialWorld :=
  C1_amended initialWorld Reachable.init

end Shooter
